import Mathlib

/-!
Verification of the old-sell-app marketplace application (src/app.py).

The app is a Flask + SQLAlchemy web application with three tables
(User, Item, ChatMessage) and a handful of request handlers.  We embed
the database as lists of records, a request handler as a function from
the database state (plus the request's inputs) to an outcome and a new
state, and Python's dynamic conversions (`float`, `int`, truthiness)
as explicit partial functions.

External libraries that the handlers call are modelled as follows:
* werkzeug's `generate_password_hash` is an abstract function parameter
  `hashPw`; `check_password_hash(stored, pw)` is `stored == hashPw pw`;
* the PaytmChecksum SDK (not part of the repository) is modelled from
  the spec as an injective encoding of the parameter map and key;
* werkzeug's `Accept.best_match` is modelled from its documented
  semantics (best quality match over the server-supplied list, a
  default of `None` when nothing matches).
-/

namespace OldSellApp

/-- Value of a digit string, `foldl`-style, as in Python's int parsing. -/
def digitsVal (cs : List Char) : Nat :=
  cs.foldl (fun a c => a * 10 + (c.toNat - 48)) 0

/-- Python `s.split(sep)` for a one-character separator: never returns an
empty list; splitting the empty string gives one empty segment. -/
def splitOnChar (sep : Char) : List Char → List (List Char)
  | [] => [[]]
  | c :: rest =>
    match splitOnChar sep rest with
    | [] => [[]]
    | g :: gs => if c == sep then [] :: g :: gs else (c :: g) :: gs

/-- Model of Python `int(s)` on a plain string: optional sign followed by a
nonempty run of digits; anything else raises `ValueError` (`none`). -/
def pyIntChars (cs : List Char) : Option Int :=
  match cs with
  | '-' :: rest =>
    if rest.length > 0 && rest.all Char.isDigit then
      some (-(digitsVal rest : Int))
    else none
  | '+' :: rest =>
    if rest.length > 0 && rest.all Char.isDigit then
      some ((digitsVal rest : Int))
    else none
  | _ =>
    if cs.length > 0 && cs.all Char.isDigit then
      some ((digitsVal cs : Int))
    else none

/-- Python `int(s)` over a Lean string. -/
def pyInt (s : String) : Option Int := pyIntChars s.data

/-- Unsigned part of Python `float(s)`: digits with an optional decimal
point, at least one digit overall; the result is an exact rational. -/
def pyFloatCore (ds : List Char) : Option Rat :=
  match splitOnChar '.' ds with
  | [intPart] =>
    if intPart.length > 0 && intPart.all Char.isDigit then
      some ((digitsVal intPart : Rat))
    else none
  | [intPart, fracPart] =>
    if (intPart.length > 0 || fracPart.length > 0)
        && intPart.all Char.isDigit && fracPart.all Char.isDigit then
      some ((digitsVal intPart : Rat)
        + (digitsVal fracPart : Rat) / ((10 : Rat) ^ fracPart.length))
    else none
  | _ => none

/-- Model of Python `float(s)` on plain decimal literals: optional sign,
then digits with an optional decimal point.  Exponent forms, inf/nan and
surrounding whitespace are not modelled.  Any other string raises
`ValueError` (`none`). -/
def pyFloat (s : String) : Option Rat :=
  match s.data with
  | '-' :: rest => (pyFloatCore rest).map (fun r => -r)
  | '+' :: rest => pyFloatCore rest
  | _ => pyFloatCore s.data

/-- The `User` table: id, unique username/email/phone, password hash,
admin flag, optional UPI id. -/
structure User where
  id : Nat
  username : String
  password_hash : String
  email : String
  phone : String
  is_admin : Bool
  upi_id : Option String
deriving Repr, DecidableEq

/-- The `Item` table.  `price` is a Python float; all prices arising in the
claims are exact decimals, modelled as rationals.  Latitude/longitude are
unused by every handler and omitted. -/
structure Item where
  id : Nat
  title : String
  description : String
  price : Rat
  currency : String
  image_filename : Option String
  seller_id : Nat
  location : String
  is_sold : Bool
deriving Repr, DecidableEq

/-- The `ChatMessage` table; `timestamp` is the server clock at creation,
modelled as a natural number. -/
structure ChatMessage where
  id : Nat
  from_user_id : Nat
  to_user_id : Nat
  message : String
  timestamp : Nat
deriving Repr, DecidableEq

/-- The whole database, rows in storage (insertion) order. -/
structure AppState where
  users : List User
  items : List Item
  messages : List ChatMessage
deriving Repr, DecidableEq

/-- Autoincrement primary key: one more than the largest id in use. -/
def nextUserId (s : AppState) : Nat :=
  s.users.foldr (fun u m => max u.id m) 0 + 1

/-- Autoincrement primary key for items. -/
def nextItemId (s : AppState) : Nat :=
  s.items.foldr (fun it m => max it.id m) 0 + 1

/-- Autoincrement primary key for chat messages. -/
def nextMessageId (s : AppState) : Nat :=
  s.messages.foldr (fun m acc => max m.id acc) 0 + 1

/-- `Item.query.get(item_id)`: primary-key lookup. -/
def findItem (s : AppState) (item_id : Nat) : Option Item :=
  s.items.find? (fun it => it.id == item_id)

/-- `User.query.get(user_id)`: primary-key lookup. -/
def findUser (s : AppState) (user_id : Nat) : Option User :=
  s.users.find? (fun u => u.id == user_id)

/-- Outcome of the `/register` POST handler. -/
inductive RegisterOutcome where
  | duplicateIdentity
  | success
deriving Repr, DecidableEq

/-- The duplicate filter of `/register`: one disjunctive query
`(User.username == username) | (User.email == email) | (User.phone == phone)`. -/
def duplicateOf (username email phone : String) (u : User) : Bool :=
  u.username == username || u.email == email || u.phone == phone

/-- The `/register` POST handler: `first()` on the disjunctive duplicate
filter; on a hit, flash-and-redirect with no state change; otherwise
create the user with `set_password` and commit.  `hashPw` abstracts
werkzeug's `generate_password_hash`. -/
def register (hashPw : String → String) (s : AppState)
    (username email phone password : String) : RegisterOutcome × AppState :=
  match s.users.find? (duplicateOf username email phone) with
  | some _ => (RegisterOutcome.duplicateIdentity, s)
  | none =>
    (RegisterOutcome.success,
      { s with users := s.users ++
        [{ id := nextUserId s, username := username,
           password_hash := hashPw password, email := email,
           phone := phone, is_admin := false, upi_id := none }] })

/-- Outcome of the `/login` POST handler. -/
inductive LoginOutcome where
  | success (user_id : Nat)
  | invalidCredentials
deriving Repr, DecidableEq

/-- The `/login` POST handler: `first()` on the disjunctive identity filter
against `login_input`, then `check_password` on that user.  `hashPw`
abstracts `generate_password_hash`; `check_password_hash(stored, pw)` is
modelled as `stored == hashPw pw`. -/
def login (hashPw : String → String) (s : AppState)
    (login_input password : String) : LoginOutcome :=
  match s.users.find? (fun u =>
      u.username == login_input || u.email == login_input || u.phone == login_input) with
  | some u =>
    if u.password_hash == hashPw password then LoginOutcome.success u.id
    else LoginOutcome.invalidCredentials
  | none => LoginOutcome.invalidCredentials

/-- `allowed_file(filename)` from src/app.py: has a dot, and the lowercased
text after the last dot is an allowed image extension. -/
def allowed_file (filename : String) : Bool :=
  filename.data.contains '.' &&
    (String.mk (((splitOnChar '.' filename.data).getLastD []).map Char.toLower)
      ∈ (["png", "jpg", "jpeg", "gif"] : List String))

/-- Outcome of the `/sell` POST handler.  `uncaughtValueError` models the
`ValueError` raised by `float(request.form['price'])` on malformed input,
which no handler catches (HTTP 500, not a structured validation response). -/
inductive SellOutcome where
  | success
  | uncaughtValueError
deriving Repr, DecidableEq

/-- The `/sell` POST handler for an authenticated user `uid`: converts the
price with `float(...)` (uncaught `ValueError` on malformed input — note: no
sign check of any kind), stores the image filename when its extension is
allowed (werkzeug's `secure_filename` sanitization is external and
orthogonal to every claim, so the name is kept as given), and commits a new
`Item` whose `is_sold` defaults to `False`. -/
def sell_item (s : AppState) (uid : Nat)
    (title description priceStr currency location : String)
    (image : Option String) : SellOutcome × AppState :=
  match pyFloat priceStr with
  | none => (SellOutcome.uncaughtValueError, s)
  | some price =>
    let filename : Option String :=
      match image with
      | some f => if allowed_file f then some f else none
      | none => none
    (SellOutcome.success,
      { s with items := s.items ++
        [{ id := nextItemId s, title := title, description := description,
           price := price, currency := currency, image_filename := filename,
           seller_id := uid, location := location, is_sold := false }] })

/-- The two JSON fields that the `/send_message` handler reads from the
request body via `data.get(...)`; no other key is ever read.  `none` models
an absent key or JSON null; a well-typed client sends an integer user id
and a string message. -/
structure MessagePayload where
  to_user_id : Option Nat
  message : Option String
deriving Repr, DecidableEq

/-- Python truthiness of the `to_user_id` field: absent/null and 0 are falsy. -/
def truthyId : Option Nat → Bool
  | none => false
  | some n => n != 0

/-- Python truthiness of the `message` field: absent/null and "" are falsy. -/
def truthyStr : Option String → Bool
  | none => false
  | some t => t != ""

/-- The `/send_message` POST handler for the authenticated user `uid` at
server time `now`: if both fields are truthy it commits one `ChatMessage`
with `from_user_id := uid` and answers HTTP 200, otherwise it answers
HTTP 400 with no state change.  Whether `to_user_id` names an existing
user is never checked. -/
def send_message (s : AppState) (uid : Nat) (now : Nat)
    (payload : MessagePayload) : Nat × AppState :=
  if truthyId payload.to_user_id && truthyStr payload.message then
    (200,
      { s with messages := s.messages ++
        [{ id := nextMessageId s, from_user_id := uid,
           to_user_id := payload.to_user_id.getD 0,
           message := payload.message.getD "", timestamp := now }] })
  else (400, s)

/-- The symmetric conversation filter used by `/get_messages` and `/chat`:
either direction of the (sender, recipient) pair. -/
def conversationFilter (a b : Nat) (m : ChatMessage) : Bool :=
  (m.from_user_id == a && m.to_user_id == b)
    || (m.from_user_id == b && m.to_user_id == a)

/-- Timestamp order used by `order_by(ChatMessage.timestamp)`. -/
def byTimestamp (m1 m2 : ChatMessage) : Prop :=
  m1.timestamp ≤ m2.timestamp

instance : DecidableRel byTimestamp := fun _ _ => Nat.decLe _ _

instance : IsTotal ChatMessage byTimestamp :=
  ⟨fun a b => Nat.le_total a.timestamp b.timestamp⟩

instance : IsTrans ChatMessage byTimestamp :=
  ⟨fun _ _ _ h1 h2 => Nat.le_trans h1 h2⟩

/-- The `/get_messages/<to_user_id>` handler for authenticated user `uid`:
filter both directions of the pair, ordered by ascending timestamp. -/
def get_messages (s : AppState) (uid to_user_id : Nat) : List ChatMessage :=
  (s.messages.filter (conversationFilter uid to_user_id)).insertionSort byTimestamp

/-- The conversation query of the `/chat/<item_id>` handler: the same
symmetric filter, against the item's seller. -/
def chat_with_seller (s : AppState) (uid : Nat) (item : Item) : List ChatMessage :=
  get_messages s uid item.seller_id

/-- The `/` handler: all items with `is_sold == False`. -/
def home (s : AppState) : List Item :=
  s.items.filter (fun it => it.is_sold == false)

/-- Outcome of the `/paytm_redirect` POST handler. -/
inductive PaytmOutcome where
  | success
  | failed
  | notFound
  | uncaughtFault
deriving Repr, DecidableEq

/-- Python `order_id.split('_')[-1]`: `str.split` never returns an empty
list, so the `[-1]` index is the last segment. -/
def lastUnderscoreSegment (order_id : String) : String :=
  String.mk ((splitOnChar '_' order_id.data).getLastD [])

/-- `Item.query.get(item_id)` with the Python int produced by the order-id
parsing: primary-key lookup against a possibly negative integer. -/
def findItemByInt (s : AppState) (n : Int) : Option Item :=
  s.items.find? (fun it => ((it.id : Int) == n))

/-- The `/paytm_redirect` POST handler over the raw form fields.  When
`STATUS` is exactly `TXN_SUCCESS` it parses the item id as
`int(order_id.split('_')[-1])` (a missing `ORDERID` or a non-numeric
segment raises an uncaught fault; an unknown id aborts with 404 — both
without any state change), loads the item and commits `is_sold = True`.
Any other status only flashes a failure message: no state change. -/
def paytm_redirect (s : AppState) (form : String → Option String) :
    PaytmOutcome × AppState :=
  if form "STATUS" == some "TXN_SUCCESS" then
    match form "ORDERID" with
    | none => (PaytmOutcome.uncaughtFault, s)
    | some order_id =>
      match pyInt (lastUnderscoreSegment order_id) with
      | none => (PaytmOutcome.uncaughtFault, s)
      | some n =>
        match findItemByInt s n with
        | none => (PaytmOutcome.notFound, s)
        | some it =>
          (PaytmOutcome.success,
            { s with items := s.items.map (fun j =>
                if j.id == it.id then { j with is_sold := true } else j) })
  else (PaytmOutcome.failed, s)

/-- One state-bearing request to the application: every route of
src/app.py.  Read-only routes are listed so that the `is_sold` invariant
quantifies over every operation of the system. -/
inductive Op where
  | homeOp
  | loginOp (login_input password : String)
  | registerOp (username email phone password : String)
  | logoutOp
  | sellOp (uid : Nat) (title description priceStr currency location : String)
      (image : Option String)
  | itemDetailsOp (item_id : Nat)
  | myItemsOp (uid : Nat)
  | buyItemOp (item_id : Nat)
  | chatOp (uid item_id : Nat)
  | sendMessageOp (uid now : Nat) (payload : MessagePayload)
  | getMessagesOp (uid to_user_id : Nat)
  | getApiInfoOp
  | getPaymentChecksumOp (order_id txn_amount : String)
  | paytmRedirectOp (form : String → Option String)

/-- The state transition of one request.  Routes that only read (home,
item pages, chat views, the checksum and api-info endpoints) and the
login/logout session handlers leave the database untouched. -/
def step (hashPw : String → String) (op : Op) (s : AppState) : AppState :=
  match op with
  | Op.registerOp username email phone password =>
    (register hashPw s username email phone password).2
  | Op.sellOp uid t d pr c l img => (sell_item s uid t d pr c l img).2
  | Op.sendMessageOp uid now payload => (send_message s uid now payload).2
  | Op.paytmRedirectOp form => (paytm_redirect s form).2
  | _ => s

/-- Injective numeric code of a character list: fold with Cantor pairing of
the character codes, shifted by one so the empty list is distinguished. -/
def charsToNat : List Char → Nat
  | [] => 0
  | c :: cs => Nat.pair c.toNat (charsToNat cs) + 1

/-- Injective numeric code of a string. -/
def strToNat (s : String) : Nat := charsToNat s.data

/-- Injective numeric code of one key-value parameter pair. -/
def pairToNat (p : String × String) : Nat :=
  Nat.pair (strToNat p.1) (strToNat p.2)

/-- Injective numeric code of a flat string-keyed parameter map. -/
def paramsToNat : List (String × String) → Nat
  | [] => 0
  | p :: ps => Nat.pair (pairToNat p) (paramsToNat ps) + 1

/-- Little-endian binary digits of a natural number, as characters. -/
def natToBits (n : Nat) : List Char :=
  if h : n = 0 then []
  else (if n % 2 == 1 then '1' else '0') :: natToBits (n / 2)
decreasing_by exact Nat.div_lt_self (Nat.pos_of_ne_zero h) (by decide)

namespace PaytmChecksum

/-- Modelled from the spec: the external gateway SDK's checksum generation
(the `paytmchecksum` package is a third-party dependency, not part of this
repository; the spec treats the gateway as an opaque external service whose
checksum is an opaque string determined by the flat string-keyed parameter
map and the secret key). -/
def generate_checksum (params : List (String × String)) (key : String) : String :=
  String.mk (natToBits (Nat.pair (paramsToNat params) (strToNat key)))

/-- Modelled from the spec: the external gateway SDK's symmetric checksum
verification, a boolean check of the checksum against the same map and key. -/
def verify_checksum (params : List (String × String)) (key : String)
    (checksum : String) : Bool :=
  checksum == generate_checksum params key

end PaytmChecksum

/-- `generate_checksum(params, key)` from src/app.py: delegates to the SDK. -/
def generate_checksum (params : List (String × String)) (key : String) : String :=
  PaytmChecksum.generate_checksum params key

/-- `verify_checksum(params, checksum, key)` from src/app.py: delegates to
the SDK (note the swapped argument order in the delegation). -/
def verify_checksum (params : List (String × String)) (checksum : String)
    (key : String) : Bool :=
  PaytmChecksum.verify_checksum params key checksum

/-- One client-offered language: a tag and its quality weight. -/
structure LangQ where
  tag : String
  q : Rat
deriving Repr, DecidableEq

/-- Modelled from werkzeug: language-tag normalization (lowercase, first
subtag before a `-`/`_` delimiter). -/
def normalizeLang (s : String) : String :=
  String.mk ((s.data.map Char.toLower).takeWhile (fun c => c != '-' && c != '_'))

/-- Modelled from werkzeug: a server-supplied tag matches a client tag when
the client tag is the wildcard or the normalized tags agree. -/
def langValueMatches (serverItem clientItem : String) : Bool :=
  clientItem == "*" || normalizeLang clientItem == normalizeLang serverItem

/-- Modelled from werkzeug: the first client entry matching a
server-supplied tag. -/
def bestSingleMatch (accepted : List LangQ) (serverItem : String) : Option LangQ :=
  accepted.find? (fun c => langValueMatches serverItem c.tag)

/-- One scan step of werkzeug's `best_match`: keep the candidate whose
matching client entry has the strictly highest quality so far. -/
def bestStep (accepted : List LangQ) (acc : Option String × Rat)
    (server : String) : Option String × Rat :=
  match bestSingleMatch accepted server with
  | some c => if c.q ≤ acc.2 then acc else (some server, c.q)
  | none => acc

/-- Modelled from werkzeug's documented `Accept.best_match` semantics: scan
the server-supplied candidates, keep the one whose matching client entry
has the strictly highest quality, and fall back to the default (`None`)
when no candidate matches. -/
def best_match (accepted : List LangQ) (choices : List String) : Option String :=
  (choices.foldl (bestStep accepted) ((none : Option String), (-1 : Rat))).1

/-- `get_locale()` from src/app.py:
`request.accept_languages.best_match(['en', 'hi'])`, a pure function of the
client's accepted-language list. -/
def get_locale (accepted : List LangQ) : Option String :=
  best_match accepted ["en", "hi"]

/-- Concrete unsold item used to exercise the payment callback. -/
def itemC1 : Item :=
  { id := 42, title := "bike", description := "red bike", price := 100,
    currency := "INR", image_filename := none, seller_id := 1,
    location := "pune", is_sold := false }

/-- Concrete one-item database for the payment-callback claim. -/
def stateC1 : AppState :=
  { users := [{ id := 1, username := "alice", password_hash := "H",
                email := "a@x.com", phone := "111", is_admin := false,
                upi_id := none }],
    items := [itemC1], messages := [] }

/-- Concrete failed-payment form fields. -/
def formFailC1 : String → Option String :=
  fun k => if k == "STATUS" then some "TXN_FAILURE" else none

/-- Concrete successful-payment form fields for order `order_42`. -/
def formOkC1 : String → Option String :=
  fun k =>
    if k == "STATUS" then some "TXN_SUCCESS"
    else if k == "ORDERID" then some "order_42" else none

/-- Concrete one-user database for the registration claim. -/
def stateC2 : AppState :=
  { users := [{ id := 1, username := "alice", password_hash := "Hpw1",
                email := "alice@x.com", phone := "111", is_admin := false,
                upi_id := none }],
    items := [], messages := [] }

/-- Concrete hash function standing in for werkzeug's salted hash. -/
def hashC2 : String → String := fun p => "H" ++ p

/-- Concrete one-user database (no user with id 7 exists) for the
send-message claim. -/
def stateC3 : AppState :=
  { users := [{ id := 1, username := "alice", password_hash := "Hpw1",
                email := "alice@x.com", phone := "111", is_admin := false,
                upi_id := none }],
    items := [], messages := [] }

/-- Concrete parameter map for the checksum round-trip claim. -/
def paramsC4 : List (String × String) :=
  [("MID", "m1"), ("ORDERID", "order_42"), ("TXN_AMOUNT", "100")]

/-- Concrete two-user database where the identifier `x@y.com` is the first
user's username and the second user's email. -/
def stateC5 : AppState :=
  { users :=
      [{ id := 1, username := "x@y.com", password_hash := "HA",
         email := "a@a.com", phone := "111", is_admin := false, upi_id := none },
       { id := 2, username := "bob", password_hash := "HB",
         email := "x@y.com", phone := "222", is_admin := false, upi_id := none }],
    items := [], messages := [] }

/-- Concrete hash function for the login claim. -/
def hashC5 : String → String := fun p => "H" ++ p

/-- Concrete sold item for the is_sold-invariant claim. -/
def itemC7 : Item :=
  { id := 1, title := "lamp", description := "desk lamp", price := 5,
    currency := "INR", image_filename := none, seller_id := 1,
    location := "delhi", is_sold := true }

/-- Concrete one-item database for the is_sold-invariant claim. -/
def stateC7 : AppState := { users := [], items := [itemC7], messages := [] }

/-- Concrete empty database for the listing-price claim. -/
def stateC8 : AppState := { users := [], items := [], messages := [] }

/-- Concrete empty database for the sender-integrity claim. -/
def stateC10 : AppState := { users := [], items := [], messages := [] }

/-- The message row persisted by the sender-integrity witness request. -/
def msgC10 : ChatMessage :=
  { id := 1, from_user_id := 1, to_user_id := 2, message := "hi", timestamp := 5 }

/-- Setting the sold flag of an already sold item is the identity. -/
theorem setSold_self (it : Item) (h : it.is_sold = true) :
    ({ it with is_sold := true } : Item) = it := by
  cases it
  simp_all

/-- Searching the sold-flag update of a list with a predicate that ignores
the sold flag finds the updated original hit. -/
theorem find?_map_setSold (l : List Item) (tid : Nat) (p : Item → Bool)
    (hp : ∀ j : Item, p { j with is_sold := true } = p j) :
    (l.map (fun j => if j.id == tid then { j with is_sold := true } else j)).find? p
      = (l.find? p).map (fun j => if j.id == tid then { j with is_sold := true } else j) := by
  rw [List.find?_map]
  have hcomp : (p ∘ fun j => if j.id == tid then { j with is_sold := true } else j) = p := by
    funext j
    by_cases h : j.id == tid <;> simp [Function.comp, h, hp]
  rw [hcomp]

/-- Character codes determine characters. -/
theorem charToNat_injective {a b : Char} (h : a.toNat = b.toNat) : a = b := by
  have h2 := congrArg Char.ofNat h
  simpa [Char.ofNat_toNat] using h2

/-- The numeric code of a character list is injective. -/
theorem charsToNat_injective : ∀ cs ds : List Char, charsToNat cs = charsToNat ds → cs = ds := by
  intro cs
  induction cs with
  | nil =>
    intro ds h
    cases ds with
    | nil => rfl
    | cons d ds => simp only [charsToNat] at h; omega
  | cons c cs ih =>
    intro ds h
    cases ds with
    | nil => simp only [charsToNat] at h; omega
    | cons d ds =>
      simp only [charsToNat] at h
      have h2 : Nat.pair c.toNat (charsToNat cs) = Nat.pair d.toNat (charsToNat ds) := by omega
      obtain ⟨h3, h4⟩ := Nat.pair_eq_pair.mp h2
      rw [charToNat_injective h3, ih ds h4]

/-- The numeric code of a string is injective. -/
theorem strToNat_injective {s t : String} (h : strToNat s = strToNat t) : s = t :=
  String.ext (charsToNat_injective _ _ h)

/-- The numeric code of a key-value pair is injective. -/
theorem pairToNat_injective {p q : String × String} (h : pairToNat p = pairToNat q) : p = q := by
  obtain ⟨h1, h2⟩ := Nat.pair_eq_pair.mp h
  exact Prod.ext (strToNat_injective h1) (strToNat_injective h2)

/-- The numeric code of a parameter map is injective. -/
theorem paramsToNat_injective :
    ∀ ps qs : List (String × String), paramsToNat ps = paramsToNat qs → ps = qs := by
  intro ps
  induction ps with
  | nil =>
    intro qs h
    cases qs with
    | nil => rfl
    | cons q qs => simp only [paramsToNat] at h; omega
  | cons p ps ih =>
    intro qs h
    cases qs with
    | nil => simp only [paramsToNat] at h; omega
    | cons q qs =>
      simp only [paramsToNat] at h
      have h2 : Nat.pair (pairToNat p) (paramsToNat ps)
          = Nat.pair (pairToNat q) (paramsToNat qs) := by omega
      obtain ⟨h3, h4⟩ := Nat.pair_eq_pair.mp h2
      rw [pairToNat_injective h3, ih qs h4]

/-- The binary digits of zero. -/
theorem natToBits_zero : natToBits 0 = [] := by
  rw [natToBits]
  simp

/-- Unfolding of the binary digits of a positive number. -/
theorem natToBits_pos {n : Nat} (h : n ≠ 0) :
    natToBits n = (if n % 2 == 1 then '1' else '0') :: natToBits (n / 2) := by
  rw [natToBits]
  simp [h]

/-- The binary-digit representation is injective. -/
theorem natToBits_injective : ∀ m n : Nat, natToBits m = natToBits n → m = n := by
  intro m
  induction m using Nat.strongRecOn with
  | ind m ih =>
    intro n h
    by_cases hm : m = 0
    · by_cases hn : n = 0
      · omega
      · rw [hm, natToBits_zero, natToBits_pos hn] at h
        exact absurd h (by simp)
    · by_cases hn : n = 0
      · rw [hn, natToBits_zero, natToBits_pos hm] at h
        exact absurd h (by simp)
      · rw [natToBits_pos hm, natToBits_pos hn] at h
        simp only [List.cons.injEq] at h
        obtain ⟨h1, h2⟩ := h
        have hd : m / 2 = n / 2 :=
          ih (m / 2) (Nat.div_lt_self (Nat.pos_of_ne_zero hm) (by omega)) (n / 2) h2
        have hp : m % 2 = n % 2 := by
          rcases Nat.mod_two_eq_zero_or_one m with h3 | h3 <;>
            rcases Nat.mod_two_eq_zero_or_one n with h4 | h4 <;>
              simp [h3, h4] at h1 ⊢
        omega

/-- The modelled SDK checksum determines the parameter map and the key. -/
theorem generate_checksum_injective {params params2 : List (String × String)}
    {key key2 : String}
    (h : generate_checksum params key = generate_checksum params2 key2) :
    params = params2 ∧ key = key2 := by
  have hb : natToBits (Nat.pair (paramsToNat params) (strToNat key))
      = natToBits (Nat.pair (paramsToNat params2) (strToNat key2)) :=
    congrArg String.data h
  have h1 := natToBits_injective _ _ hb
  obtain ⟨h2, h3⟩ := Nat.pair_eq_pair.mp h1
  exact ⟨paramsToNat_injective _ _ h2, strToNat_injective h3⟩

/-- Shape analysis of the item table across one request: it is unchanged,
extended by one fresh row, or rewritten by the sold-flag update of the
payment callback (and the last only by the payment callback). -/
theorem step_items (hashPw : String → String) (op : Op) (s : AppState) :
    (step hashPw op s).items = s.items ∨
    (∃ x, (step hashPw op s).items = s.items ++ [x]) ∨
    ((∃ form, op = Op.paytmRedirectOp form) ∧
      ∃ tid, (step hashPw op s).items = s.items.map (fun j =>
        if j.id == tid then { j with is_sold := true } else j)) := by
  cases op with
  | registerOp username email phone password =>
    left
    simp only [step, register]
    cases s.users.find? (duplicateOf username email phone) <;> rfl
  | sellOp uid t d pr c l img =>
    simp only [step, sell_item]
    cases pyFloat pr with
    | none => left; rfl
    | some price => right; left; exact ⟨_, rfl⟩
  | sendMessageOp uid now payload =>
    left
    simp only [step, send_message]
    by_cases h : truthyId payload.to_user_id && truthyStr payload.message <;> simp [h]
  | paytmRedirectOp form =>
    by_cases h : form "STATUS" == some "TXN_SUCCESS"
    · cases horder : form "ORDERID" with
      | none => left; simp [step, paytm_redirect, h, horder]
      | some oid =>
        cases hpi : pyInt (lastUnderscoreSegment oid) with
        | none => left; simp [step, paytm_redirect, h, horder, hpi]
        | some n =>
          cases hf : findItemByInt s n with
          | none => left; simp [step, paytm_redirect, h, horder, hpi, hf]
          | some it =>
            right; right
            refine ⟨⟨form, rfl⟩, it.id, ?_⟩
            simp [step, paytm_redirect, h, horder, hpi, hf]
    · left
      simp [step, paytm_redirect, h]
  | homeOp => left; rfl
  | loginOp login_input password => left; rfl
  | logoutOp => left; rfl
  | itemDetailsOp item_id => left; rfl
  | myItemsOp uid => left; rfl
  | buyItemOp item_id => left; rfl
  | chatOp uid item_id => left; rfl
  | getMessagesOp uid to_user_id => left; rfl
  | getApiInfoOp => left; rfl
  | getPaymentChecksumOp order_id txn_amount => left; rfl

/-- The accumulator of werkzeug's scan is only ever replaced by one of the
server-supplied candidates. -/
theorem foldl_bestStep_mem (accepted : List LangQ) :
    ∀ (choices : List String) (acc : Option String × Rat),
      (choices.foldl (bestStep accepted) acc).1 = acc.1 ∨
      ∃ server ∈ choices, (choices.foldl (bestStep accepted) acc).1 = some server := by
  intro choices
  induction choices with
  | nil => intro acc; left; rfl
  | cons c cs ih =>
    intro acc
    simp only [List.foldl_cons]
    rcases ih (bestStep accepted acc c) with h | ⟨server, hs, h⟩
    · rw [h]
      cases hm : bestSingleMatch accepted c with
      | none => left; simp [bestStep, hm]
      | some q =>
        by_cases hq : q.q ≤ acc.2
        · left; simp [bestStep, hm, hq]
        · right; exact ⟨c, by simp, by simp [bestStep, hm, hq]⟩
    · right
      exact ⟨server, by simp [hs], h⟩

/-- C1: for every payment-callback request whose STATUS field equals the
success sentinel TXN_SUCCESS, the handler parses the item identifier as the
last underscore-separated segment of the ORDERID string, loads that Item
and sets its is_sold flag to true (users, messages and every other item
unchanged); for every request with any other status value, no state is
changed. -/
theorem C1_payment_callback (s : AppState) (form : String → Option String) :
    (form "STATUS" ≠ some "TXN_SUCCESS" →
      paytm_redirect s form = (PaytmOutcome.failed, s)) ∧
    (form "STATUS" = some "TXN_SUCCESS" →
      ∀ oid n it, form "ORDERID" = some oid →
        pyInt (lastUnderscoreSegment oid) = some n →
        findItemByInt s n = some it →
        (paytm_redirect s form).1 = PaytmOutcome.success ∧
        (paytm_redirect s form).2 =
          { s with items := s.items.map (fun j =>
              if j.id == it.id then { j with is_sold := true } else j) } ∧
        findItemByInt (paytm_redirect s form).2 n = some { it with is_sold := true }) := by
  constructor
  · intro h
    have hb : (form "STATUS" == some "TXN_SUCCESS") = false := beq_eq_false_iff_ne.mpr h
    simp [paytm_redirect, hb]
  · intro h oid n it horder hpi hf
    have hb : (form "STATUS" == some "TXN_SUCCESS") = true := by
      rw [h]
      exact beq_self_eq_true _
    have hres : paytm_redirect s form =
        (PaytmOutcome.success,
          { s with items := s.items.map (fun j =>
              if j.id == it.id then { j with is_sold := true } else j) }) := by
      simp [paytm_redirect, hb, horder, hpi, hf]
    refine ⟨by rw [hres], by rw [hres], ?_⟩
    rw [hres]
    simp only [findItemByInt] at hf ⊢
    rw [find?_map_setSold s.items it.id (fun it2 => ((it2.id : Int) == n))
      (fun j => rfl), hf]
    simp

/-- Witness for C1 at a concrete database, a failed callback and a
successful callback for ORDERID order_42. -/
theorem C1_payment_callback_witness :
    paytm_redirect stateC1 formFailC1 = (PaytmOutcome.failed, stateC1) ∧
    findItemByInt (paytm_redirect stateC1 formOkC1).2 42 =
      some { itemC1 with is_sold := true } := by
  constructor
  · exact (C1_payment_callback stateC1 formFailC1).1 (by decide)
  · exact (((C1_payment_callback stateC1 formOkC1).2 (by decide) "order_42" 42 itemC1
      (by decide) (by decide) (by decide))).2.2

/-- C2: a registration attempt whose username, email or phone collides with
an existing user is rejected as a duplicate identity with no state change;
an attempt with all three identity fields fresh creates exactly one new
user whose stored credential is the hash of the submitted password. -/
theorem C2_register_unique_identity (hashPw : String → String) (s : AppState)
    (username email phone password : String) :
    ((∃ u ∈ s.users, u.username = username ∨ u.email = email ∨ u.phone = phone) →
      register hashPw s username email phone password =
        (RegisterOutcome.duplicateIdentity, s)) ∧
    ((∀ u ∈ s.users, u.username ≠ username ∧ u.email ≠ email ∧ u.phone ≠ phone) →
      register hashPw s username email phone password =
        (RegisterOutcome.success,
          { s with users := s.users ++
            [{ id := nextUserId s, username := username,
               password_hash := hashPw password, email := email,
               phone := phone, is_admin := false, upi_id := none }] })) := by
  constructor
  · rintro ⟨u, hu, hdup⟩
    cases hfind : s.users.find? (duplicateOf username email phone) with
    | some v => simp [register, hfind]
    | none =>
      exfalso
      have hnone := List.find?_eq_none.mp hfind u hu
      simp only [duplicateOf, Bool.or_eq_true, beq_iff_eq, not_or] at hnone
      tauto
  · intro hfresh
    have hfind : s.users.find? (duplicateOf username email phone) = none := by
      apply List.find?_eq_none.mpr
      intro u hu
      have h := hfresh u hu
      simp only [duplicateOf, Bool.or_eq_true, beq_iff_eq, not_or]
      exact ⟨⟨h.1, h.2.1⟩, h.2.2⟩
    simp [register, hfind]

/-- Witness for C2: a duplicate-email attempt bounces with no state change,
and a fresh attempt appends exactly one hashed-credential user. -/
theorem C2_register_unique_identity_witness :
    register hashC2 stateC2 "bob" "alice@x.com" "222" "pw" =
      (RegisterOutcome.duplicateIdentity, stateC2) ∧
    register hashC2 stateC2 "bob" "bob@x.com" "222" "pw" =
      (RegisterOutcome.success,
        { stateC2 with users := stateC2.users ++
          [{ id := nextUserId stateC2, username := "bob",
             password_hash := hashC2 "pw", email := "bob@x.com",
             phone := "222", is_admin := false, upi_id := none }] }) := by
  constructor
  · exact (C2_register_unique_identity hashC2 stateC2 "bob" "alice@x.com" "222" "pw").1
      ⟨{ id := 1, username := "alice", password_hash := "Hpw1",
         email := "alice@x.com", phone := "111", is_admin := false,
         upi_id := none }, by decide, by decide⟩
  · exact (C2_register_unique_identity hashC2 stateC2 "bob" "bob@x.com" "222" "pw").2
      (by decide)

/-- C3 counterexample: the claim asserts that a send_message request whose
recipient identifier does not resolve to an existing user fails with no
persisted row; in the code the recipient is never looked up, so a request
to the nonexistent user id 7 succeeds and persists a row. -/
theorem C3_send_message_counterexample :
    ¬ ((∀ u ∈ stateC3.users, u.id ≠ 7) →
        (send_message stateC3 1 10 ⟨some 7, some "hi"⟩).2 = stateC3) := by
  decide

/-- C3 (amended): send_message fails with HTTP 400 and no state change
exactly when the to_user_id field is absent or zero or the message field is
absent or empty (Python truthiness of the two fields); otherwise it
persists exactly one ChatMessage immediately.  Whether the recipient id
resolves to an existing User is never checked. -/
theorem C3_send_message_validation (s : AppState) (uid now : Nat)
    (payload : MessagePayload) :
    (((send_message s uid now payload).1 = 400 ∧
        (send_message s uid now payload).2 = s) ↔
      (payload.to_user_id = none ∨ payload.to_user_id = some 0 ∨
        payload.message = none ∨ payload.message = some "")) ∧
    (∀ n msgText, payload.to_user_id = some n → n ≠ 0 →
      payload.message = some msgText → msgText ≠ "" →
      send_message s uid now payload =
        (200, { s with messages := s.messages ++
          [{ id := nextMessageId s, from_user_id := uid, to_user_id := n,
             message := msgText, timestamp := now }] })) := by
  obtain ⟨tid, msg⟩ := payload
  constructor
  · cases tid with
    | none => simp [send_message, truthyId, truthyStr]
    | some n =>
      cases msg with
      | none => simp [send_message, truthyId, truthyStr]
      | some m =>
        by_cases hn : n = 0
        · simp [send_message, truthyId, truthyStr, hn]
        · by_cases hm : m = ""
          · simp [send_message, truthyId, truthyStr, hn, hm]
          · simp [send_message, truthyId, truthyStr, hn, hm]
  · intro n msgText h1 h2 h3 h4
    cases h1
    cases h3
    simp [send_message, truthyId, truthyStr, h2, h4]

/-- Witness for C3 (amended): a truthy payload persists exactly one row. -/
theorem C3_send_message_validation_witness :
    send_message stateC3 1 10 ⟨some 2, some "yo"⟩ =
      (200, { stateC3 with messages := stateC3.messages ++
        [{ id := nextMessageId stateC3, from_user_id := 1, to_user_id := 2,
           message := "yo", timestamp := 10 }] }) :=
  (C3_send_message_validation stateC3 1 10 ⟨some 2, some "yo"⟩).2 2 "yo" rfl
    (by decide) rfl (by decide)

/-- C4: a checksum generated for a parameter map and key verifies against
the same map and key, and verification fails against any map obtained by
altering one parameter value (the SDK itself is modelled from the spec as
an injective opaque-string code of the map and key). -/
theorem C4_checksum_roundtrip (params : List (String × String)) (key : String) :
    verify_checksum params (generate_checksum params key) key = true ∧
    (∀ (i : Nat) (hi : i < params.length) (v : String),
      v ≠ (params[i]).2 →
      verify_checksum (params.set i ((params[i]).1, v))
        (generate_checksum params key) key = false) := by
  constructor
  · simp [verify_checksum, PaytmChecksum.verify_checksum, generate_checksum]
  · intro i hi v hv
    simp only [verify_checksum, PaytmChecksum.verify_checksum]
    rw [beq_eq_false_iff_ne]
    intro he
    obtain ⟨hparams, -⟩ := generate_checksum_injective he
    have hlen : i < (params.set i ((params[i]).1, v)).length := by simpa using hi
    have h1 : (params.set i ((params[i]).1, v))[i] = ((params[i]).1, v) :=
      List.getElem_set_self hlen
    have h2 : params[i]? = (params.set i ((params[i]).1, v))[i]? :=
      congrArg (fun l => l[i]?) hparams
    rw [List.getElem?_eq_getElem hi, List.getElem?_eq_getElem hlen, h1] at h2
    exact hv (congrArg Prod.snd (Option.some_inj.mp h2)).symm

/-- Witness for C4 at a concrete gateway parameter map: the round trip
verifies and an altered TXN_AMOUNT fails verification. -/
theorem C4_checksum_roundtrip_witness :
    verify_checksum paramsC4 (generate_checksum paramsC4 "secret") "secret" = true ∧
    verify_checksum (paramsC4.set 2 ((paramsC4.get ⟨2, by decide⟩).1, "999"))
      (generate_checksum paramsC4 "secret") "secret" = false := by
  refine ⟨(C4_checksum_roundtrip paramsC4 "secret").1, ?_⟩
  exact (C4_checksum_roundtrip paramsC4 "secret").2 2 (by decide) "999" (by decide)

/-- C5 counterexample: the identifier x@y.com is the first user's username
and the second user's email; the submitted password verifies against the
second user's hash, so by the claim the login should succeed, but the code
checks the password only against the first matching user and fails. -/
theorem C5_login_counterexample :
    (∃ u ∈ stateC5.users,
        (u.username = "x@y.com" ∨ u.email = "x@y.com" ∨ u.phone = "x@y.com") ∧
        u.password_hash = hashC5 "B") ∧
    login hashC5 stateC5 "x@y.com" "B" = LoginOutcome.invalidCredentials := by
  decide

/-- C5 (amended): login scans for the first stored user (in storage order)
whose username, email or phone equals the identifier; with no match at all
it fails with InvalidCredentials, and with a first match it succeeds bound
to that user exactly when the password verifies against that first matching
user's hash (a later user who also matches the identifier is never tried). -/
theorem C5_login_first_match (hashPw : String → String) (s : AppState)
    (login_input password : String) :
    ((∀ u ∈ s.users,
        u.username ≠ login_input ∧ u.email ≠ login_input ∧ u.phone ≠ login_input) →
      login hashPw s login_input password = LoginOutcome.invalidCredentials) ∧
    (∀ l1 u l2, s.users = l1 ++ u :: l2 →
      (∀ v ∈ l1,
        v.username ≠ login_input ∧ v.email ≠ login_input ∧ v.phone ≠ login_input) →
      (u.username = login_input ∨ u.email = login_input ∨ u.phone = login_input) →
      ((u.password_hash = hashPw password →
          login hashPw s login_input password = LoginOutcome.success u.id) ∧
        (u.password_hash ≠ hashPw password →
          login hashPw s login_input password = LoginOutcome.invalidCredentials))) := by
  constructor
  · intro hall
    have hfind : s.users.find? (fun u =>
        u.username == login_input || u.email == login_input || u.phone == login_input)
          = none := by
      apply List.find?_eq_none.mpr
      intro u hu
      have h := hall u hu
      simp only [Bool.or_eq_true, beq_iff_eq, not_or]
      exact ⟨⟨h.1, h.2.1⟩, h.2.2⟩
    simp [login, hfind]
  · intro l1 u l2 hs hl1 hu
    have hfind : s.users.find? (fun v =>
        v.username == login_input || v.email == login_input || v.phone == login_input)
          = some u := by
      rw [hs, List.find?_append]
      have h1 : l1.find? (fun v =>
          v.username == login_input || v.email == login_input || v.phone == login_input)
            = none := by
        apply List.find?_eq_none.mpr
        intro v hv
        have h := hl1 v hv
        simp only [Bool.or_eq_true, beq_iff_eq, not_or]
        exact ⟨⟨h.1, h.2.1⟩, h.2.2⟩
      have h2 : (u :: l2).find? (fun v =>
          v.username == login_input || v.email == login_input || v.phone == login_input)
            = some u := by
        apply List.find?_cons_of_pos
        simp only [Bool.or_eq_true, beq_iff_eq]
        tauto
      rw [h1, h2]
      rfl
    constructor
    · intro hpw
      simp [login, hfind, hpw]
    · intro hpw
      have hb : (u.password_hash == hashPw password) = false :=
        beq_eq_false_iff_ne.mpr hpw
      simp [login, hfind, hb]

/-- Witness for C5 (amended): the first matching user's own password
logs in as that user. -/
theorem C5_login_first_match_witness :
    login hashC5 stateC5 "x@y.com" "A" = LoginOutcome.success 1 := by
  have h := (C5_login_first_match hashC5 stateC5 "x@y.com" "A").2 []
    { id := 1, username := "x@y.com", password_hash := "HA", email := "a@a.com",
      phone := "111", is_admin := false, upi_id := none }
    [{ id := 2, username := "bob", password_hash := "HB", email := "x@y.com",
        phone := "222", is_admin := false, upi_id := none }]
    (by decide) (by decide) (by decide)
  exact h.1 (by decide)

/-- C6: the conversation query is symmetric in the two users, consists of
exactly the stored messages exchanged between them in either direction, and
is ordered by ascending timestamp. -/
theorem C6_conversation_symmetric (s : AppState) (a b : Nat) :
    get_messages s a b = get_messages s b a ∧
    (get_messages s a b).Perm (s.messages.filter (conversationFilter a b)) ∧
    List.Sorted byTimestamp (get_messages s a b) ∧
    ∀ m, m ∈ get_messages s a b ↔
      (m ∈ s.messages ∧
        ((m.from_user_id = a ∧ m.to_user_id = b) ∨
          (m.from_user_id = b ∧ m.to_user_id = a))) := by
  have hsym : conversationFilter a b = conversationFilter b a := by
    funext m
    simp [conversationFilter, Bool.or_comm]
  refine ⟨by rw [get_messages, get_messages, hsym],
    List.perm_insertionSort _ _, List.sorted_insertionSort _ _, ?_⟩
  intro m
  rw [get_messages, List.mem_insertionSort, List.mem_filter]
  simp [conversationFilter]

/-- C7: across every operation of the system an existing item's row is
either untouched or, by the payment callback alone, changed exactly by
setting a false is_sold flag to true; the flag never reverts and a callback
hitting an already sold item leaves the row identical. -/
theorem C7_is_sold_monotone (hashPw : String → String) (op : Op) (s : AppState)
    (item_id : Nat) (it it' : Item)
    (h : findItem s item_id = some it)
    (h' : findItem (step hashPw op s) item_id = some it') :
    it' = it ∨
      ((∃ form, op = Op.paytmRedirectOp form) ∧ it.is_sold = false ∧
        it' = { it with is_sold := true }) := by
  simp only [findItem] at h h'
  rcases step_items hashPw op s with hst | ⟨x, hst⟩ | ⟨hop, tid, hst⟩
  · rw [hst, h] at h'
    exact Or.inl (Option.some_inj.mp h').symm
  · rw [hst, List.find?_append, h] at h'
    exact Or.inl (Option.some_inj.mp h').symm
  · rw [hst, find?_map_setSold s.items tid (fun j => j.id == item_id)
      (fun j => rfl), h] at h'
    have h2 : (if it.id == tid then ({ it with is_sold := true } : Item) else it)
        = it' := Option.some_inj.mp h'
    by_cases hid : it.id == tid
    · rw [if_pos hid] at h2
      by_cases hsold : it.is_sold
      · left
        rw [← h2, setSold_self it hsold]
      · right
        exact ⟨hop, by simpa using hsold, h2.symm⟩
    · left
      rw [if_neg hid] at h2
      exact h2.symm

/-- Witness for C7: a read-only request leaves a sold item untouched. -/
theorem C7_is_sold_monotone_witness :
    itemC7 = itemC7 ∨
      ((∃ form, Op.homeOp = Op.paytmRedirectOp form) ∧ itemC7.is_sold = false ∧
        itemC7 = { itemC7 with is_sold := true }) :=
  C7_is_sold_monotone (fun p => p) Op.homeOp stateC7 1 itemC7 itemC7
    (by decide) (by decide)

/-- C8 (code bug): the listing handler stores `float(price)` with no sign
check, so the negative price -7 is accepted and stored (violating the
non-negativity the spec states), and the malformed price string abc raises
an uncaught ValueError (an HTTP 500 fault), not a structured
ValidationError response. -/
theorem C8_price_not_validated :
    ((sell_item stateC8 1 "table" "wood" "-7" "INR" "goa" none).1
        = SellOutcome.success ∧
      ∃ it ∈ (sell_item stateC8 1 "table" "wood" "-7" "INR" "goa" none).2.items,
        it.price < 0) ∧
    ((sell_item stateC8 1 "table" "wood" "abc" "INR" "goa" none).1
        = SellOutcome.uncaughtValueError ∧
      (sell_item stateC8 1 "table" "wood" "abc" "INR" "goa" none).2 = stateC8) := by
  decide

/-- C9 counterexample: a client accepting only French gets no match: the
selector returns None (the framework default), which is outside the two
supported tags, contradicting the claim that the result is always one of
exactly the two supported tags. -/
theorem C9_locale_counterexample :
    ¬ (get_locale [⟨"fr", 1⟩] = some "en" ∨ get_locale [⟨"fr", 1⟩] = some "hi") := by
  decide

/-- C9 (amended): the locale selector is a pure function of the accepted
languages returning the default tag en, the alternate tag hi, or None when
no accepted language matches either (deferring to the framework default). -/
theorem C9_locale_two_tags_or_none (accepted : List LangQ) :
    get_locale accepted = none ∨ get_locale accepted = some "en" ∨
      get_locale accepted = some "hi" := by
  rcases foldl_bestStep_mem accepted ["en", "hi"]
      ((none : Option String), (-1 : Rat)) with h | ⟨server, hs, h⟩
  · left
    exact h
  · right
    simp only [List.mem_cons, List.not_mem_nil, or_false] at hs
    rcases hs with rfl | rfl
    · left
      exact h
    · right
      exact h

/-- C10: every message row persisted by a send_message request carries the
authenticated session user as its sender, whatever the payload contains. -/
theorem C10_sender_is_session_user (s : AppState) (uid now : Nat)
    (payload : MessagePayload) (m : ChatMessage)
    (hm : m ∈ (send_message s uid now payload).2.messages)
    (hnew : m ∉ s.messages) : m.from_user_id = uid := by
  by_cases h : truthyId payload.to_user_id && truthyStr payload.message
  · simp only [send_message, h, if_true, List.mem_append, List.mem_singleton] at hm
    rcases hm with hm | hm
    · exact absurd hm hnew
    · rw [hm]
  · simp only [send_message, h, if_false] at hm
    exact absurd hm hnew

/-- Witness for C10: the row persisted for a concrete payload carries the
session user id 1 as sender. -/
theorem C10_sender_is_session_user_witness : msgC10.from_user_id = 1 :=
  C10_sender_is_session_user stateC10 1 5 ⟨some 2, some "hi"⟩ msgC10
    (by decide) (by decide)

end OldSellApp
